import Mathlib

/-!
# Verification of the lesson-generation API route

A shallow embedding, in Lean 4, of the lesson-generation core of this
repository (`src/app/api/generate-lesson/route.ts`): the `POST` request
handler, the title helper `extractTitle`, the generation orchestrator
`generateLessonContent`, the two provider adapters `generateWithGemini`
and `generateWithHelicone`, and the mock generator `generateMockLesson`.

Modelling conventions:

* A JavaScript string is embedded as `Str := List Char`, so that every
  operation (split, join, substring, trim, lower-casing, substring search)
  is a computable Lean function that the kernel can evaluate on concrete
  inputs.  `str` converts a Lean string literal to `Str`.
* External effects are passed in explicitly: the presence of the two
  provider credentials is a pair of Booleans, the outcome of each
  provider's network call is an `Except` value (`error` embeds a rejected
  promise / thrown error, carrying its message), and the outcome of each
  store operation is supplied by the environment.  The orchestrator
  returns the list of adapter attempts it made and the list of store
  updates it issued, in order.
* Thrown JavaScript exceptions are embedded as `Except.error` carrying
  the error's message string; `try/catch` becomes a `match` on the
  `Except` value.  The `stack` of a caught error is runtime-dependent and
  is embedded as an opaque optional field left `none`.
* JavaScript `trim`/`toLowerCase` are embedded with `Char.isWhitespace` /
  `Char.toLower`, which agree with them on the ASCII inputs used in all
  concrete evaluations below.
-/

/-- A JavaScript string, embedded as its list of characters. -/
abbrev Str := List Char

/-- Convert a Lean string literal to the embedding type. -/
def str (s : String) : Str := s.data

/-- `leadsWith pat s`: `s` starts with `pat` (JS `String#startsWith`). -/
def leadsWith : Str → Str → Bool
  | [], _ => true
  | _ :: _, [] => false
  | p :: ps, c :: cs => p == c && leadsWith ps cs

/-- `containsSub hay pat`: `pat` occurs as a contiguous substring of `hay`
(JS `String#includes`). -/
def containsSub : Str → Str → Bool
  | [], pat => pat.isEmpty
  | c :: rest, pat => leadsWith pat (c :: rest) || containsSub rest pat

/-- JS `String#toLowerCase` (ASCII-faithful). -/
def toLowerStr (s : Str) : Str := s.map Char.toLower

/-- JS `String#trim`: drop whitespace from both ends. -/
def trimChars (s : Str) : Str :=
  ((s.dropWhile Char.isWhitespace).reverse.dropWhile Char.isWhitespace).reverse

/-- JS `outline.split(' ')`: split at every single space character,
keeping empty segments (so `"".split(' ') = [""]` and consecutive spaces
produce empty segments). -/
def jsSplitSpace : Str → List Str
  | [] => [[]]
  | c :: rest =>
    if c == ' ' then [] :: jsSplitSpace rest
    else
      match jsSplitSpace rest with
      | [] => [[c]]
      | w :: ws => (c :: w) :: ws

/-- JS `Array#join(' ')`: concatenate with a single space between
consecutive elements. -/
def joinSpace : List Str → Str
  | [] => []
  | [w] => w
  | w :: ws => w ++ ' ' :: joinSpace ws

/-- `extractTitle` (route.ts lines 78–84): take the first 6 segments of
`outline.split(' ')`, re-join with single spaces; if longer than 50
characters, truncate to 50 and append `"..."`. -/
def extractTitle (outline : Str) : Str :=
  let words := joinSpace ((jsSplitSpace outline).take 6)
  if 50 < words.length then words.take 50 ++ str "..." else words

/-- Split at every whitespace character (claim-side notion used to state
"whitespace-separated words"). -/
def splitWhitespace : Str → List Str
  | [] => [[]]
  | c :: rest =>
    if c.isWhitespace then [] :: splitWhitespace rest
    else
      match splitWhitespace rest with
      | [] => [[c]]
      | w :: ws => (c :: w) :: ws

/-- Claim-side definition (from the claim's words, for comparison with the
source-derived `extractTitle`): the whitespace-separated words of a string,
i.e. its maximal runs of non-whitespace characters. -/
def claimWords (s : Str) : List Str :=
  (splitWhitespace s).filter (fun w => !w.isEmpty)

/-- Claim-side definition (from the claim's words): the first six
whitespace-separated words joined by single spaces. -/
def claimSixWords (s : Str) : Str :=
  joinSpace ((claimWords s).take 6)

/-- Lesson record status values. -/
inductive Status
  | Generating
  | Generated
  | Failed
deriving DecidableEq

/-- The row inserted by `POST` (route.ts lines 29–37): only the columns
`outline`, `title`, `status` are supplied; `content` and `trace` are
absent at creation. -/
structure InsertReq where
  outline : Str
  title : Str
  status : Status
deriving DecidableEq

/-- The HTTP response produced by `POST`. -/
inductive PostResponse
  | ok (lessonId : Str) (status : Status)
  | err (httpStatus : Nat) (message : Str)
deriving DecidableEq

/-- Observable outcome of one `POST` invocation: the HTTP response, the
insert request sent to the store (if any), and whether the background
orchestrator was dispatched. -/
structure PostResult where
  response : PostResponse
  insert : Option InsertReq
  dispatched : Bool
deriving DecidableEq

/-- `POST` (route.ts lines 9–72).  The request body's `outline` field is
`none` when absent; the store's answer to the insert is supplied as
`insertOutcome` (`ok` carries the new row's id).  The JS guard is
`if (!outline)`, which rejects exactly an absent or empty string. -/
def POST (body : Option Str) (insertOutcome : Except Str Str) : PostResult :=
  match body with
  | none => ⟨.err 400 (str "Outline is required"), none, false⟩
  | some outline =>
    if outline.isEmpty then
      ⟨.err 400 (str "Outline is required"), none, false⟩
    else
      match insertOutcome with
      | .error _ =>
        ⟨.err 500 (str "Failed to create lesson"),
          some ⟨outline, extractTitle outline, .Generating⟩, false⟩
      | .ok lessonId =>
        ⟨.ok lessonId .Generating,
          some ⟨outline, extractTitle outline, .Generating⟩, true⟩

def easterEggPromptText : String :=
  "Generate a fun, retro TypeScript gaming Easter egg! Create an interactive Konami Code detector with:\n        \n- A TypeScript class that tracks arrow key presses\n- The classic sequence: up, up, down, down, left, right, left, right, B, A\n- A celebration function that triggers when completed\n- Retro gaming ASCII art comments\n- At least 3 different \"cheat code\" effects (god mode, 30 lives, etc.)\n- Make it nostalgic and fun for developers!\n\nReturn ONLY the TypeScript code, no markdown formatting or explanations."

def normalPromptPre : String :=
  "Generate a complete, executable TypeScript module for an educational lesson based on this outline: \""

def normalPromptPost : String :=
  "\"\n\nRequirements:\n- Create an interactive quiz or educational content\n- Use TypeScript with proper types\n- Include functions that can be called/executed\n- Make it educational and engaging\n- Add comments explaining the code\n- Include at least 3-5 questions or learning points\n\nReturn ONLY the TypeScript code, no markdown formatting or explanations."

def mockKonamiText : String :=
  "// 🎮 KONAMI CODE EASTER EGG 🎮\n// ↑ ↑ ↓ ↓ ← → ← → B A\n\ntype KeyCode = \x27ArrowUp\x27 | \x27ArrowDown\x27 | \x27ArrowLeft\x27 | \x27ArrowRight\x27 | \x27KeyB\x27 | \x27KeyA\x27;\n\nclass KonamiCodeDetector \x7b\n  private sequence: KeyCode[] = [\n    \x27ArrowUp\x27, \x27ArrowUp\x27, \x27ArrowDown\x27, \x27ArrowDown\x27,\n    \x27ArrowLeft\x27, \x27ArrowRight\x27, \x27ArrowLeft\x27, \x27ArrowRight\x27,\n    \x27KeyB\x27, \x27KeyA\x27\n  ];\n  private currentIndex: number = 0;\n\n  constructor() \x7b\n    this.setupListener();\n  \x7d\n\n  private setupListener(): void \x7b\n    document.addEventListener(\x27keydown\x27, (e: KeyboardEvent) => \x7b\n      if (e.code === this.sequence[this.currentIndex]) \x7b\n        this.currentIndex++;\n        if (this.currentIndex === this.sequence.length) \x7b\n          this.activate();\n          this.currentIndex = 0;\n        \x7d\n      \x7d else \x7b\n        this.currentIndex = 0;\n      \x7d\n    \x7d);\n  \x7d\n\n  private activate(): void \x7b\n    console.log(\x27🎮 KONAMI CODE ACTIVATED! 🎮\x27);\n    this.godMode();\n    this.extraLives();\n    this.unlockSecrets();\n  \x7d\n\n  private godMode(): void \x7b\n    console.log(\x27⚡ GOD MODE ENABLED ⚡\x27);\n    document.body.style.filter = \x27hue-rotate(180deg)\x27;\n  \x7d\n\n  private extraLives(): void \x7b\n    console.log(\x27❤️ +30 LIVES! ❤️\x27);\n  \x7d\n\n  private unlockSecrets(): void \x7b\n    console.log(\x27🔓 ALL SECRETS UNLOCKED! 🔓\x27);\n  \x7d\n\x7d\n\n// Initialize the detector\nconst konami = new KonamiCodeDetector();\nconsole.log(\x27Try the Konami Code: ↑ ↑ ↓ ↓ ← → ← → B A\x27);"

def mockNormalPre : String :=
  "// TypeScript Educational Module\n// Topic: "

def mockNormalPost : String :=
  "\n\ninterface Question \x7b\n  id: number;\n  question: string;\n  options: string[];\n  correctAnswer: number;\n  explanation: string;\n\x7d\n\nclass Quiz \x7b\n  private questions: Question[] = [\n    \x7b\n      id: 1,\n      question: \"What is TypeScript?\",\n      options: [\n        \"A JavaScript library\",\n        \"A superset of JavaScript\",\n        \"A backend framework\",\n        \"A database\"\n      ],\n      correctAnswer: 1,\n      explanation: \"TypeScript is a superset of JavaScript that adds static typing.\"\n    \x7d,\n    \x7b\n      id: 2,\n      question: \"What does the \x27interface\x27 keyword do?\",\n      options: [\n        \"Creates a class\",\n        \"Defines a type structure\",\n        \"Imports a module\",\n        \"Exports a function\"\n      ],\n      correctAnswer: 1,\n      explanation: \"Interfaces define the structure of objects in TypeScript.\"\n    \x7d,\n    \x7b\n      id: 3,\n      question: \"What is the purpose of generics?\",\n      options: [\n        \"To make code faster\",\n        \"To create reusable components\",\n        \"To compress code\",\n        \"To add colors\"\n      ],\n      correctAnswer: 1,\n      explanation: \"Generics allow creating reusable components that work with multiple types.\"\n    \x7d\n  ];\n\n  checkAnswer(questionId: number, answer: number): boolean \x7b\n    const question = this.questions.find(q => q.id === questionId);\n    return question ? question.correctAnswer === answer : false;\n  \x7d\n\n  getExplanation(questionId: number): string \x7b\n    const question = this.questions.find(q => q.id === questionId);\n    return question ? question.explanation : \"Question not found\";\n  \x7d\n\n  getAllQuestions(): Question[] \x7b\n    return this.questions;\n  \x7d\n\x7d\n\n// Example usage:\nconst quiz = new Quiz();\nconsole.log(\"Quiz loaded with\", quiz.getAllQuestions().length, \"questions\");\n\nexport \x7b Quiz, Question \x7d;"

/-- The summary string stored in `trace.prompt` (route.ts line 98):
`"Generate a TypeScript educational module for: " + outline`. -/
def tracePromptText (outline : Str) : Str :=
  str "Generate a TypeScript educational module for: " ++ outline

/-- Easter-egg detection (route.ts lines 118–119): the lower-cased outline
contains `"konami"` or `"up up down down"`. -/
def isEasterEggB (outline : Str) : Bool :=
  containsSub (toLowerStr outline) (str "konami") ||
  containsSub (toLowerStr outline) (str "up up down down")

/-- The prompt actually passed to the adapters (route.ts lines 122–145):
the fixed easter-egg template, or the normal template with the outline
interpolated inside double quotes. -/
def buildPrompt (outline : Str) : Str :=
  if isEasterEggB outline then str easterEggPromptText
  else str normalPromptPre ++ outline ++ str normalPromptPost

/-- `generateMockLesson` (route.ts lines 342–475): the fixed Konami
template when `isEasterEgg`, else the quiz template with the outline
embedded in the `// Topic:` comment header. -/
def generateMockLesson (outline : Str) (isEasterEgg : Bool) : Str :=
  if isEasterEgg then str mockKonamiText
  else str mockNormalPre ++ outline ++ str mockNormalPost

/-- Provider response metadata recorded into `trace.response_metadata`
(route.ts lines 330–334 and 543–547); fields unused by a provider stay
`none`. -/
structure RespMeta where
  model : Option Str := none
  finishReason : Option Str := none
  safetyRatings : Option Str := none
  id : Option Str := none
  created : Option Nat := none
deriving DecidableEq

/-- The trace object accumulated by the orchestrator (route.ts lines
97–102 and mutated along the chain).  A JS field that was never assigned
is `none` (`false` for the `mock` flag). -/
structure Trace where
  prompt : Str
  timestamp : Str
  provider : Option Str := none
  model : Option Str := none
  output : Option Str := none
  mock : Bool := false
  fallback_reason : Option Str := none
  response_metadata : Option RespMeta := none
deriving DecidableEq

/-- One part of a Gemini candidate's content: `{text?: string}`. -/
structure GeminiPart where
  text : Option Str
deriving DecidableEq

/-- A Gemini candidate's `content` object: `{parts?: Part[], role?}`. -/
structure GeminiContent where
  parts : Option (List GeminiPart)
  role : Option Str := none
deriving DecidableEq

/-- A Gemini generation candidate. -/
structure GeminiCandidate where
  content : Option GeminiContent
  finishReason : Option Str := none
  safetyRatings : Option Str := none
deriving DecidableEq

/-- The `fetch` response of the Gemini call, as the adapter observes it:
HTTP `ok`/`status`, the body text read on error, and the parsed JSON's
`candidates` field (absent when the envelope is malformed). -/
structure GeminiHttpResponse where
  ok : Bool
  status : Nat
  errorText : Str := []
  candidates : Option (List GeminiCandidate) := none
deriving DecidableEq

/-- An OpenAI-shape chat message: `{content?: string | null}`. -/
structure HeliconeMessage where
  content : Option Str
deriving DecidableEq

/-- A Helicone (OpenAI-shape) choice: `{message?: {content?}}`. -/
structure HeliconeChoice where
  message : Option HeliconeMessage
deriving DecidableEq

/-- The completion object the Helicone call resolves with; `choices` is
optional because the adapter reads it with `completion.choices?.[0]`. -/
structure HeliconeCompletion where
  choices : Option (List HeliconeChoice)
  id : Str := []
  created : Nat := 0
  model : Str := []
deriving DecidableEq

/-- One pass of the global regex replace `pat\n?` → `""`: a left-to-right
scan that removes every occurrence of `pat` together with one optional
newline directly after it, never rescanning emitted output (route.ts
lines 322–326 and 537–541).  `fuel` bounds the recursion; callers pass
the input length plus one, which suffices since every step consumes at
least one character. -/
def removeFenceAux : Nat → Str → Str → Str
  | 0, _, s => s
  | _ + 1, _, [] => []
  | fuel + 1, pat, c :: rest =>
    if !pat.isEmpty && leadsWith pat (c :: rest) then
      let r := (c :: rest).drop pat.length
      removeFenceAux fuel pat (match r with
        | '\n' :: r2 => r2
        | _ => r)
    else c :: removeFenceAux fuel pat rest

/-- Remove every occurrence of `pat` (plus an optional following newline)
from `s`. -/
def removeFence (pat : Str) (s : Str) : Str :=
  removeFenceAux (s.length + 1) pat s

/-- The code-fence cleanup both adapters apply: strip
```` ```typescript ````, ```` ```ts ```` and ```` ``` ```` markers (each
with an optional trailing newline), in that order. -/
def stripFences (s : Str) : Str :=
  removeFence (str "\x60\x60\x60")
    (removeFence (str "\x60\x60\x60ts")
      (removeFence (str "\x60\x60\x60typescript") s))

/-- Decimal rendering of a natural number (JS template interpolation of
`response.status`). -/
def natStr (n : Nat) : Str := (Nat.repr n).data

/-- `role || 'model'` (route.ts line 331): an absent or empty role falls
back to `"model"`. -/
def roleOrModel (role : Option Str) : Str :=
  match role with
  | none => str "model"
  | some r => if r.isEmpty then str "model" else r

/-- `generateWithGemini` (route.ts lines 248–337), as a function of the
outcome of its `fetch` call (`Except.error` = the fetch rejected / threw,
carrying the error message).  Validation mirrors the source exactly:
non-`ok` responses, a missing/empty `candidates` array, and a first
candidate without `content`/`parts` each throw the source's error
message; a first part whose `text` field is absent makes the subsequent
`content.replace` call throw a `TypeError` (embedded with its message);
a present-but-empty `text` is accepted and returned (after fence
stripping and trimming) without any error.  On success the adapter
records `output` and `response_metadata` into the caller's trace. -/
def generateWithGemini (fetchOutcome : Except Str GeminiHttpResponse)
    (_prompt : Str) (trace : Trace) : Except Str (Str × Trace) :=
  match fetchOutcome with
  | .error e => .error e
  | .ok resp =>
    if !resp.ok then
      .error (str "Gemini API returned " ++ natStr resp.status ++ str ": " ++
        resp.errorText)
    else
      match resp.candidates with
      | none => .error (str "Invalid response structure from Gemini API")
      | some [] => .error (str "Invalid response structure from Gemini API")
      | some (candidate :: _) =>
        match candidate.content with
        | none => .error (str "No content in Gemini API response")
        | some ct =>
          match ct.parts with
          | none => .error (str "No content in Gemini API response")
          | some [] => .error (str "No content in Gemini API response")
          | some (part :: _) =>
            match part.text with
            | none =>
              .error (str "Cannot read properties of undefined (reading \x27replace\x27)")
            | some txt =>
              let content := trimChars (stripFences txt)
              .ok (content,
                { trace with
                    output := some content,
                    response_metadata := some
                      { model := some (roleOrModel ct.role),
                        finishReason := candidate.finishReason,
                        safetyRatings := candidate.safetyRatings } })

/-- `generateWithHelicone` (route.ts lines 512–550), as a function of the
outcome of the OpenAI SDK call (`Except.error` = the call rejected,
carrying the error message).  The source performs no validation of the
completion: `completion.choices?.[0]?.message?.content ?? ''` defaults a
missing choice list, message or content to the empty string, so on any
resolved completion the adapter succeeds, returning the (possibly empty)
cleaned text and recording `output` and `response_metadata` into the
caller's trace. -/
def generateWithHelicone (callOutcome : Except Str HeliconeCompletion)
    (_prompt : Str) (trace : Trace) : Except Str (Str × Trace) :=
  match callOutcome with
  | .error e => .error e
  | .ok completion =>
    let content :=
      (((completion.choices.bind List.head?).bind
        HeliconeChoice.message).bind HeliconeMessage.content).getD []
    let cleaned := trimChars (stripFences content)
    .ok (cleaned,
      { trace with
          output := some cleaned,
          response_metadata := some
            { id := some completion.id,
              created := some completion.created,
              model := some completion.model } })

/-- The value stored in the `trace` column by a store update: either the
orchestrator's accumulated trace (the `Generated` path) or the failure
object `{error, stack, timestamp}` written by the catch block (route.ts
lines 235–239; `stack` is runtime-dependent and embedded as `none`). -/
inductive TraceVal
  | gen (t : Trace)
  | failure (error : Str) (stack : Option Str) (timestamp : Str)
deriving DecidableEq

/-- One store update issued by the orchestrator: the columns it supplies
(`content := none` means the `content` column is not part of the update)
and the row id it targets. -/
structure UpdatePayload where
  lessonId : Str
  content : Option Str
  status : Status
  trace : TraceVal
deriving DecidableEq

instance : DecidableEq (Except Str Str) := fun a b =>
  match a, b with
  | .ok x, .ok y => decidable_of_iff (x = y) (by simp)
  | .error x, .error y => decidable_of_iff (x = y) (by simp)
  | .ok _, .error _ => isFalse (by simp)
  | .error _, .ok _ => isFalse (by simp)

/-- One adapter attempt made by the orchestrator: which provider was
called, the prompt passed to it, and the attempt's outcome (the returned
content, or the error message it failed with). -/
structure Attempt where
  provider : Str
  prompt : Str
  outcome : Except Str Str
deriving DecidableEq

/-- The environment of one orchestrator invocation: presence of the two
credentials (`!!process.env.HELICONE_API_KEY` /
`!!process.env.GEMINI_API_KEY`), the outcome each provider call would
resolve with if made, the store's answer to the `Generated` update and to
the best-effort `Failed` update (`none` = no error), and the two
`new Date().toISOString()` readings (trace creation, catch block). -/
structure OrchEnv where
  heliconeKey : Bool
  geminiKey : Bool
  heliconeResp : Except Str HeliconeCompletion
  geminiResp : Except Str GeminiHttpResponse
  updateError : Option Str
  failedUpdateError : Option Str
  now : Str
  failNow : Str

/-- Observable behaviour of one orchestrator invocation: the adapter
attempts made (in order) and the store updates issued (in order), each
paired with the store's answer to it (`none` = accepted). -/
structure OrchResult where
  attempts : List Attempt
  updates : List (UpdatePayload × Option Str)

/-- `generateLessonContent` (route.ts lines 91–243).  The function is
total: every path ends in store updates, never a propagated exception.
The fallback chain (lines 152–194): with a Helicone key, try Helicone;
on its failure try Gemini when a Gemini key exists, falling back to the
mock on Gemini's failure; without a Gemini key fall back to the mock
directly.  With only a Gemini key, try Gemini and fall back to the mock.
With no key, use the mock directly.  The accumulated trace, content and
status `Generated` are then written in one update; if the store rejects
that update the thrown store error is caught and a best-effort `Failed`
update with `{error, stack, timestamp}` is issued (lines 200–242). -/
def generateLessonContent (env : OrchEnv) (lessonId outline : Str) :
    OrchResult :=
  let trace0 : Trace :=
    { prompt := tracePromptText outline, timestamp := env.now }
  let useHelicone := env.heliconeKey
  let useGemini := env.geminiKey
  let isEasterEgg := isEasterEggB outline
  let prompt := buildPrompt outline
  let step :
      Str × Trace × List Attempt :=
    if useHelicone then
      let t1 := { trace0 with
                    provider := some (str "helicone"),
                    model := some (str "gpt-4o-mini") }
      match generateWithHelicone env.heliconeResp prompt t1 with
      | .ok (c, t') => (c, t', [⟨str "helicone", prompt, .ok c⟩])
      | .error e =>
        if useGemini then
          let t2 := { t1 with
                        provider := some (str "gemini"),
                        model := some (str "gemini-2.5-flash") }
          match generateWithGemini env.geminiResp prompt t2 with
          | .ok (c, t') =>
            (c, t',
              [⟨str "helicone", prompt, .error e⟩,
               ⟨str "gemini", prompt, .ok c⟩])
          | .error e2 =>
            let c := generateMockLesson outline isEasterEgg
            (c, { t2 with
                    output := some c,
                    mock := true,
                    fallback_reason := some e2 },
              [⟨str "helicone", prompt, .error e⟩,
               ⟨str "gemini", prompt, .error e2⟩])
        else
          let c := generateMockLesson outline isEasterEgg
          (c, { t1 with
                  output := some c,
                  mock := true,
                  fallback_reason := some e },
            [⟨str "helicone", prompt, .error e⟩])
    else if useGemini then
      let t1 := { trace0 with
                    provider := some (str "gemini"),
                    model := some (str "gemini-2.5-flash") }
      match generateWithGemini env.geminiResp prompt t1 with
      | .ok (c, t') => (c, t', [⟨str "gemini", prompt, .ok c⟩])
      | .error e =>
        let c := generateMockLesson outline isEasterEgg
        (c, { t1 with
                output := some c,
                mock := true,
                fallback_reason := some e },
          [⟨str "gemini", prompt, .error e⟩])
    else
      let c := generateMockLesson outline isEasterEgg
      (c, { trace0 with output := some c, mock := true }, [])
  let content := step.1
  let trace := step.2.1
  let attempts := step.2.2
  let genUpdate : UpdatePayload :=
    ⟨lessonId, some content, .Generated, .gen trace⟩
  match env.updateError with
  | none => ⟨attempts, [(genUpdate, none)]⟩
  | some e =>
    ⟨attempts,
      [(genUpdate, some e),
       (⟨lessonId, none, .Failed, .failure e none env.failNow⟩,
        env.failedUpdateError)]⟩

/-- Derived observable of `generateWithGemini`: its content and response
metadata as a function of the fetch outcome alone (the adapter's
success/failure and returned text do not depend on the prompt or the
caller's trace; `generateWithGemini_eq` below proves the agreement). -/
def geminiCore : Except Str GeminiHttpResponse → Except Str (Str × RespMeta)
  | .error e => .error e
  | .ok resp =>
    if !resp.ok then
      .error (str "Gemini API returned " ++ natStr resp.status ++ str ": " ++
        resp.errorText)
    else
      match resp.candidates with
      | none => .error (str "Invalid response structure from Gemini API")
      | some [] => .error (str "Invalid response structure from Gemini API")
      | some (candidate :: _) =>
        match candidate.content with
        | none => .error (str "No content in Gemini API response")
        | some ct =>
          match ct.parts with
          | none => .error (str "No content in Gemini API response")
          | some [] => .error (str "No content in Gemini API response")
          | some (part :: _) =>
            match part.text with
            | none =>
              .error (str "Cannot read properties of undefined (reading \x27replace\x27)")
            | some txt =>
              .ok (trimChars (stripFences txt),
                { model := some (roleOrModel ct.role),
                  finishReason := candidate.finishReason,
                  safetyRatings := candidate.safetyRatings })

/-- Derived observable of `generateWithHelicone` (see `geminiCore`). -/
def heliconeCore : Except Str HeliconeCompletion → Except Str (Str × RespMeta)
  | .error e => .error e
  | .ok completion =>
    .ok (trimChars (stripFences
        ((((completion.choices.bind List.head?).bind
          HeliconeChoice.message).bind HeliconeMessage.content).getD [])),
      { id := some completion.id,
        created := some completion.created,
        model := some completion.model })

/-- Whether a Gemini attempt with this fetch outcome fails. -/
def geminiFails (o : Except Str GeminiHttpResponse) : Bool :=
  match geminiCore o with
  | .error _ => true
  | .ok _ => false

/-- Whether a Helicone attempt with this call outcome fails. -/
def heliconeFails (o : Except Str HeliconeCompletion) : Bool :=
  match heliconeCore o with
  | .error _ => true
  | .ok _ => false

/-- The three generation paths of the claimed decision policy. -/
inductive GenSource
  | secondary
  | primary
  | mock
deriving DecidableEq

/-- Spec-side definition, written from the claim's words (the decision
policy of the spec's §4.1): the ordered list of generation steps taken,
given which credentials are configured and whether each attempted adapter
fails.  The last element is the step that produces the final content. -/
def specPriorityChain (secondaryConfigured primaryConfigured
    secondaryFails primaryFails : Bool) : List GenSource :=
  if secondaryConfigured then
    if !secondaryFails then [.secondary]
    else if primaryConfigured then
      if !primaryFails then [.secondary, .primary]
      else [.secondary, .primary, .mock]
    else [.secondary, .mock]
  else if primaryConfigured then
    if !primaryFails then [.primary] else [.primary, .mock]
  else [.mock]

/-- The provider name an adapter step calls (`none` for the mock step). -/
def adapterName : GenSource → Option Str
  | .secondary => some (str "helicone")
  | .primary => some (str "gemini")
  | .mock => none

/-- The payloads of the store updates an orchestrator run issued. -/
def updatePayloads (r : OrchResult) : List UpdatePayload :=
  r.updates.map Prod.fst

/-- The first store update an orchestrator run issued: the update that
concludes the generation chain (on a cooperating store it is the only
one). -/
def firstUpdate (r : OrchResult) : Option UpdatePayload :=
  (updatePayloads r).head?

/-- The last store update an orchestrator run issued: the terminal write
as the store saw it. -/
def lastUpdate (r : OrchResult) : Option UpdatePayload :=
  (updatePayloads r).getLast?

/-- The orchestrator trace carried by a `trace` column value, when it is
one (as opposed to the catch block's `{error, stack, timestamp}`). -/
def genTraceOf : TraceVal → Option Trace
  | .gen t => some t
  | .failure _ _ _ => none

/-- The accumulated generation trace of the chain-concluding update. -/
def terminalGenTrace (r : OrchResult) : Option Trace :=
  (firstUpdate r).bind (fun u => genTraceOf u.trace)

/-- Whether an attempt outcome is a failure. -/
def attemptFailed : Except Str Str → Bool
  | .error _ => true
  | .ok _ => false

/-- Derived description of `trace.provider` at the end of the chain (used
by the amended claim C9): the name of the last adapter the orchestrator
attempted, or `none` when no credential is configured. -/
def lastAttemptedProvider (env : OrchEnv) : Option Str :=
  if env.heliconeKey then
    if heliconeFails env.heliconeResp && env.geminiKey then some (str "gemini")
    else some (str "helicone")
  else if env.geminiKey then some (str "gemini")
  else none

/-- A lesson row of the store, as this core sees it. -/
structure LessonRow where
  outline : Str
  title : Str
  status : Status
  content : Option Str
  trace : Option TraceVal
deriving DecidableEq

/-- The row a `POST` insert creates: columns not supplied are absent. -/
def applyInsert (req : InsertReq) : LessonRow :=
  ⟨req.outline, req.title, req.status, none, none⟩

/-- Apply one accepted update to a row: only the columns the update
supplies change (`content := none` leaves the stored content alone). -/
def applyUpdate (row : LessonRow) (u : UpdatePayload) : LessonRow :=
  { row with
      status := u.status,
      content := match u.content with
        | some c => some c
        | none => row.content,
      trace := some u.trace }

/-- The row that results from the insert followed by every update the
store accepted (a rejected update leaves the row unchanged). -/
def applyAccepted (req : InsertReq)
    (ups : List (UpdatePayload × Option Str)) : LessonRow :=
  ups.foldl
    (fun row pu =>
      match pu.2 with
      | none => applyUpdate row pu.1
      | some _ => row)
    (applyInsert req)

/-- The record invariant of the amended claim C6: `Generated` rows have
content and a trace; `Generating` and `Failed` rows have no content. -/
def rowInv (row : LessonRow) : Prop :=
  (row.status = .Generated → row.content.isSome ∧ row.trace.isSome) ∧
  (row.status = .Generating → row.content = none) ∧
  (row.status = .Failed → row.content = none)

/-- A completion whose `choices` field is absent (shared by the C6 and C7
counterexamples). -/
def emptyCompletion : HeliconeCompletion := ⟨none, [], 0, []⟩

/-- A minimal caller trace for adapter-level counterexamples. -/
def blankTrace : Trace := { prompt := [], timestamp := [] }

/-- The returned content of a successful adapter result. -/
def exOkContent : Except Str (Str × Trace) → Option Str
  | .ok (c, _) => some c
  | .error _ => none

/-- Environment for the C2 witness: a store that rejects the `Generated`
update with message `"db down"`. -/
def envC2 : OrchEnv :=
  ⟨false, false, .error [], .error [], some (str "db down"), none,
    str "T0", str "T1"⟩

/-- Environment for the C3 witness: both credentials configured, both
provider calls reject. -/
def envC3 : OrchEnv :=
  ⟨true, true, .error (str "h fail"), .error (str "g fail"), none, none,
    str "T0", str "T1"⟩

/-- The spec-side decision chain of an invocation's environment. -/
def orchChain (env : OrchEnv) : List GenSource :=
  specPriorityChain env.heliconeKey env.geminiKey
    (heliconeFails env.heliconeResp) (geminiFails env.geminiResp)

/-- Environment for the C6 counterexample: a Helicone credential is
configured and the provider resolves with a completion that has no
choices, which the adapter turns into empty text. -/
def envC6 : OrchEnv :=
  ⟨true, false, .ok emptyCompletion, .error (str "g"), none, none,
    str "T0", str "T1"⟩

/-- A Gemini fetch response that succeeds with one valid candidate. -/
def geminiOkResp : GeminiHttpResponse :=
  ⟨true, 200, [],
    some [⟨some ⟨some [⟨some (str "let x=1")⟩], some (str "model")⟩,
      none, none⟩]⟩

/-- Environment for the C8 counterexample: only a Gemini credential is
configured and the Gemini call succeeds. -/
def envC8 : OrchEnv :=
  ⟨false, true, .error (str "h"), .ok geminiOkResp, none, none,
    str "T0", str "T1"⟩

/-- Environment for the C9 counterexample: only a Gemini credential is
configured and the Gemini call rejects, so the mock produces the final
content. -/
def envC9 : OrchEnv :=
  ⟨false, true, .error (str "h"), .error (str "boom"), none, none,
    str "T0", str "T1"⟩

theorem generateWithGemini_eq (o : Except Str GeminiHttpResponse)
    (p : Str) (t : Trace) :
    generateWithGemini o p t = (geminiCore o).map
      (fun cm => (cm.1,
        { t with output := some cm.1, response_metadata := some cm.2 })) := by
  rcases o with e | ⟨ok, status, et, cands⟩
  · rfl
  · cases ok
    · rfl
    · rcases cands with _ | ⟨_ | ⟨⟨ct, fr, sr⟩, cs⟩⟩
      · rfl
      · rfl
      · rcases ct with _ | ⟨parts, role⟩
        · rfl
        · rcases parts with _ | ⟨_ | ⟨⟨txt⟩, ps⟩⟩
          · rfl
          · rfl
          · rcases txt with _ | txt <;> rfl

theorem generateWithHelicone_eq (o : Except Str HeliconeCompletion)
    (p : Str) (t : Trace) :
    generateWithHelicone o p t = (heliconeCore o).map
      (fun cm => (cm.1,
        { t with output := some cm.1, response_metadata := some cm.2 })) := by
  rcases o with e | c <;> rfl

/-- A Helicone attempt fails exactly when its network call rejected: the
adapter never fails on a completion the call resolved with. -/
theorem heliconeFails_iff_error (o : Except Str HeliconeCompletion) :
    heliconeFails o = true ↔ ∃ e, o = .error e := by
  rcases o with e | c <;> simp [heliconeFails, heliconeCore]

theorem jsSplitSpace_ne_nil (s : Str) : jsSplitSpace s ≠ [] := by
  cases s with
  | nil => simp [jsSplitSpace]
  | cons c rest =>
    simp only [jsSplitSpace]
    split
    · simp
    · split <;> simp

theorem joinSpace_cons_cons (c : Char) (w : Str) (L : List Str) :
    joinSpace ((c :: w) :: L) = c :: joinSpace (w :: L) := by
  cases L <;> simp [joinSpace]

/-- The re-joined first `n` space-split segments of a string form a prefix
of it: `split(' ')` and `join(' ')` are mutually inverse on prefixes. -/
theorem joinSpace_take_isPrefixOf (o : Str) : ∀ n : Nat,
    joinSpace ((jsSplitSpace o).take n) <+: o := by
  induction o with
  | nil => intro n; cases n <;> simp [jsSplitSpace, joinSpace]
  | cons c rest ih =>
    intro n
    by_cases hc : c = ' '
    · subst hc
      have hsplit : jsSplitSpace (' ' :: rest) = [] :: jsSplitSpace rest := by
        simp [jsSplitSpace]
      rw [hsplit]
      cases n with
      | zero => simp [joinSpace]
      | succ m =>
        rw [List.take_succ_cons]
        rcases hm : (jsSplitSpace rest).take m with _ | ⟨w, ws⟩
        · simp [joinSpace]
        · have hjoin : joinSpace ([] :: w :: ws) = ' ' :: joinSpace (w :: ws) := by
            simp [joinSpace]
          rw [hjoin]
          have h2 := ih m
          rw [hm] at h2
          exact List.cons_prefix_cons.mpr ⟨rfl, h2⟩
    · obtain ⟨w, ws, hS⟩ : ∃ w ws, jsSplitSpace rest = w :: ws := by
        rcases h : jsSplitSpace rest with _ | ⟨w, ws⟩
        · exact absurd h (jsSplitSpace_ne_nil rest)
        · exact ⟨w, ws, rfl⟩
      have hsplit : jsSplitSpace (c :: rest) = (c :: w) :: ws := by
        simp [jsSplitSpace, hc, hS]
      rw [hsplit]
      cases n with
      | zero => simp [joinSpace]
      | succ m =>
        rw [List.take_succ_cons, joinSpace_cons_cons]
        have h2 := ih (m + 1)
        rw [hS, List.take_succ_cons] at h2
        exact List.cons_prefix_cons.mpr ⟨rfl, h2⟩

/-- C10. For every outline string, the title returned by `extractTitle`
has length at most 53 characters: at most 50 characters of the
first-six-segments prefix plus the three-character `"..."` marker when
truncation applies, and at most 50 characters otherwise. -/
theorem C10_title_length_le (outline : Str) :
    (extractTitle outline).length ≤ 53 := by
  unfold extractTitle
  set words := joinSpace ((jsSplitSpace outline).take 6) with hw
  by_cases h : 50 < words.length
  · rw [if_pos h, List.length_append, List.length_take]
    have h3 : (str "...").length = 3 := rfl
    rw [h3]
    have := Nat.min_le_left 50 words.length
    omega
  · rw [if_neg h]
    omega

/-- C5 counterexample.  At the outline `"a  b"` (two spaces) the derived
title is `"a  b"`, not the first six whitespace-separated words `"a b"`
joined by single spaces: `split(' ')` keeps the empty segment produced by
the double space, so the claim's description fails. -/
theorem C5_counterexample :
    extractTitle (str "a  b") ≠ claimSixWords (str "a  b") := by decide

/-- C5 as amended.  The derived title is built from the first six
*single-space-split segments* of the outline (consecutive spaces produce
empty segments that count toward the six, and other whitespace does not
separate), so the six-segment string is literally a prefix of the
outline; whenever that string exceeds 50 characters the title is its
first 50 characters followed by `"..."`, and otherwise it is that string
itself. -/
theorem C5_title_amended (outline : Str) :
    joinSpace ((jsSplitSpace outline).take 6) <+: outline ∧
    extractTitle outline =
      (if 50 < (joinSpace ((jsSplitSpace outline).take 6)).length
       then (joinSpace ((jsSplitSpace outline).take 6)).take 50 ++ str "..."
       else joinSpace ((jsSplitSpace outline).take 6)) :=
  ⟨joinSpace_take_isPrefixOf outline 6, rfl⟩

/-- C4 counterexample.  The create endpoint's guard is `if (!outline)`,
which only rejects an absent or empty outline: at the whitespace-only
outline `" "` the endpoint answers 200 with a lesson id and sends the
store an insert (with title `" "`), contradicting "returns a 4xx client
error and inserts no lesson record". -/
theorem C4_counterexample :
    (POST (some (str " ")) (.ok (str "L1"))).response =
      .ok (str "L1") .Generating ∧
    (POST (some (str " ")) (.ok (str "L1"))).insert =
      some ⟨str " ", str " ", .Generating⟩ ∧
    (POST (some (str " ")) (.ok (str "L1"))).dispatched = true := by
  decide

/-- C4 as amended.  For every request body whose outline is absent or the
empty string, the create endpoint returns a 400 client error, inserts no
lesson record, and does not dispatch generation.  (An outline consisting
only of whitespace is truthy in JavaScript and is accepted.) -/
theorem C4_blank_amended (body : Option Str) (io : Except Str Str)
    (h : body = none ∨ body = some []) :
    (POST body io).response = .err 400 (str "Outline is required") ∧
    (POST body io).insert = none ∧
    (POST body io).dispatched = false := by
  rcases h with rfl | rfl <;> simp [POST]

theorem C4_witness :
    (POST none (.ok (str "x"))).response =
      .err 400 (str "Outline is required") ∧
    (POST none (.ok (str "x"))).insert = none ∧
    (POST none (.ok (str "x"))).dispatched = false :=
  C4_blank_amended none (.ok (str "x")) (Or.inl rfl)

/-- C7 counterexample.  On a resolved completion with no `choices` at
all, `generateWithHelicone` does not fail: `choices?.[0]?.message?.content
?? ''` defaults to the empty string, and the adapter returns empty text —
contradicting "each adapter ... fails (rather than returning empty text)
when the candidate list is missing". -/
theorem C7_counterexample :
    exOkContent (generateWithHelicone (.ok emptyCompletion) (str "p")
      blankTrace) = some [] := by
  decide

/-- C7 as amended.  Each adapter propagates a rejected provider call as a
failure with its message.  `generateWithGemini` validates the response
envelope — non-2xx status, a missing or empty candidate list, a first
candidate without `content`, and a `content` with missing or empty
`parts` all fail with a descriptive error — but it does not require the
candidate's text to be non-empty: a present but empty `text` is returned
as empty content.  `generateWithHelicone` performs no validation at all:
every resolved completion succeeds, and a missing *or empty* choice list
yields empty content. -/
theorem C7_adapter_validation_amended (e : Str) (hc : HeliconeCompletion)
    (g : GeminiHttpResponse) (p : Str) (t : Trace) :
    generateWithHelicone (.error e) p t = .error e ∧
    generateWithGemini (.error e) p t = .error e ∧
    (∃ s t', generateWithHelicone (.ok hc) p t = .ok (s, t')) ∧
    (hc.choices = none ∨ hc.choices = some [] →
      ∃ t', generateWithHelicone (.ok hc) p t = .ok ([], t')) ∧
    (g.ok = true → g.candidates = none ∨ g.candidates = some [] →
      generateWithGemini (.ok g) p t =
        .error (str "Invalid response structure from Gemini API")) ∧
    (g.ok = false →
      generateWithGemini (.ok g) p t =
        .error (str "Gemini API returned " ++ natStr g.status ++ str ": " ++
          g.errorText)) ∧
    (∀ cand cs, g.ok = true → g.candidates = some (cand :: cs) →
      cand.content = none →
      generateWithGemini (.ok g) p t =
        .error (str "No content in Gemini API response")) ∧
    (∀ cand cs ct, g.ok = true → g.candidates = some (cand :: cs) →
      cand.content = some ct → ct.parts = none ∨ ct.parts = some [] →
      generateWithGemini (.ok g) p t =
        .error (str "No content in Gemini API response")) ∧
    (∀ cand cs ct part ps, g.ok = true → g.candidates = some (cand :: cs) →
      cand.content = some ct → ct.parts = some (part :: ps) →
      part.text = some [] →
      ∃ t', generateWithGemini (.ok g) p t = .ok ([], t')) := by
  obtain ⟨gok, gst, get, gcands⟩ := g
  obtain ⟨hch, hid, hcr, hmo⟩ := hc
  refine ⟨rfl, rfl, ⟨_, _, rfl⟩, ?_, ?_, ?_, ?_, ?_, ?_⟩
  · intro h
    rcases h with h | h <;> simp only at h <;> subst h <;> exact ⟨_, rfl⟩
  · intro hok hcand
    simp only at hok
    subst hok
    rcases hcand with h | h <;> simp only at h <;> subst h <;> rfl
  · intro hok
    simp only at hok
    subst hok
    rfl
  · intro cand cs hok hc1 hcont
    simp only at hok hc1
    subst hok
    subst hc1
    simp [generateWithGemini, hcont]
  · intro cand cs ct hok hc1 hc2 hparts
    simp only at hok hc1
    subst hok
    subst hc1
    rcases hparts with h | h <;>
      simp [generateWithGemini, hc2, h]
  · intro cand cs ct part ps hok hc1 hc2 hp ht
    simp only at hok hc1
    subst hok
    subst hc1
    simp only [generateWithGemini, hc2, hp, ht]
    exact ⟨_, rfl⟩

theorem geminiFails_iff (o : Except Str GeminiHttpResponse) :
    geminiFails o = true ↔ ∃ m, geminiCore o = .error m := by
  cases h : geminiCore o <;> simp [geminiFails, h]

/-- The mock generator's output is never empty. -/
theorem generateMockLesson_ne_nil (o : Str) (egg : Bool) :
    generateMockLesson o egg ≠ [] := by
  cases egg <;> simp only [generateMockLesson, if_true, if_false]
  · intro h
    rcases List.append_eq_nil.mp h with ⟨h1, -⟩
    rcases List.append_eq_nil.mp h1 with ⟨h2, -⟩
    exact absurd h2 (by decide)
  · exact (by decide : str mockKonamiText ≠ [])

/-- C2.  When the `Generated` store update fails, the orchestrator does
not propagate the thrown store error: its terminal action is a second,
best-effort update setting the record's status to `Failed` with a trace
carrying the error's message and a timestamp — and those are the only
two updates issued. -/
theorem C2_store_error_terminal_failed (env : OrchEnv)
    (lessonId outline : Str) (e : Str) (h : env.updateError = some e) :
    lastUpdate (generateLessonContent env lessonId outline) =
      some ⟨lessonId, none, .Failed, .failure e none env.failNow⟩ ∧
    (updatePayloads (generateLessonContent env lessonId outline)).length = 2 := by
  rcases env with ⟨hk, gk, hr, gr, ue, fe, n1, n2⟩
  obtain rfl : ue = some e := h
  simp [generateLessonContent, lastUpdate, updatePayloads]

theorem C2_witness :
    lastUpdate (generateLessonContent envC2 (str "i") (str "o")) =
      some ⟨str "i", none, .Failed,
        .failure (str "db down") none (str "T1")⟩ ∧
    (updatePayloads (generateLessonContent envC2 (str "i") (str "o"))).length
      = 2 :=
  C2_store_error_terminal_failed envC2 (str "i") (str "o") (str "db down") rfl

/-- C3.  When both configured adapters fail, the update concluding the
generation chain sets status `Generated` (not `Failed`), with content
equal to the mock generator's output and a trace with `mock = true` and
`fallback_reason` equal to the error message of the last failing adapter
attempt (the nested Gemini attempt); when the store accepts it, it is
the invocation's only update. -/
theorem C3_both_adapters_fail_mock (env : OrchEnv) (lessonId outline : Str)
    (hk : env.heliconeKey = true) (hg : env.geminiKey = true)
    (hf : heliconeFails env.heliconeResp = true)
    (gf : geminiFails env.geminiResp = true) :
    ∃ m t,
      firstUpdate (generateLessonContent env lessonId outline) =
        some ⟨lessonId,
          some (generateMockLesson outline (isEasterEggB outline)),
          .Generated, .gen t⟩ ∧
      t.mock = true ∧
      t.fallback_reason = some m ∧
      ((generateLessonContent env lessonId outline).attempts.map
        Attempt.outcome).getLast? = some (.error m) ∧
      (env.updateError = none →
        updatePayloads (generateLessonContent env lessonId outline) =
          [⟨lessonId,
            some (generateMockLesson outline (isEasterEggB outline)),
            .Generated, .gen t⟩]) := by
  rcases env with ⟨bhk, bgk, hr, gr, ue, fe, n1, n2⟩
  obtain rfl : bhk = true := hk
  obtain rfl : bgk = true := hg
  obtain ⟨e, rfl⟩ : ∃ e, hr = .error e := (heliconeFails_iff_error hr).mp hf
  obtain ⟨m, hgc⟩ : ∃ m, geminiCore gr = .error m := (geminiFails_iff gr).mp gf
  refine ⟨m,
    { prompt := tracePromptText outline, timestamp := n1,
      provider := some (str "gemini"),
      model := some (str "gemini-2.5-flash"),
      output := some (generateMockLesson outline (isEasterEggB outline)),
      mock := true, fallback_reason := some m }, ?_, rfl, rfl, ?_, ?_⟩ <;>
    cases ue <;>
      simp [generateLessonContent, generateWithHelicone, firstUpdate,
        updatePayloads, generateWithGemini_eq, hgc, Except.map]

theorem C3_witness :
    ∃ m t,
      firstUpdate (generateLessonContent envC3 (str "i") (str "o")) =
        some ⟨str "i",
          some (generateMockLesson (str "o") (isEasterEggB (str "o"))),
          .Generated, .gen t⟩ ∧
      t.mock = true ∧
      t.fallback_reason = some m ∧
      ((generateLessonContent envC3 (str "i") (str "o")).attempts.map
        Attempt.outcome).getLast? = some (.error m) ∧
      (envC3.updateError = none →
        updatePayloads (generateLessonContent envC3 (str "i") (str "o")) =
          [⟨str "i",
            some (generateMockLesson (str "o") (isEasterEggB (str "o"))),
            .Generated, .gen t⟩]) :=
  C3_both_adapters_fail_mock envC3 (str "i") (str "o") rfl rfl rfl rfl

/-- C1.  The orchestrator's generation decision is the claimed strict
priority chain, evaluated once per invocation: the adapter attempts it
makes are exactly the adapter steps of the spec-side chain
(`specPriorityChain`), in order — so at most one attempt is in flight at
a time and attempts advance only on failure — every attempt before the
last failed, the chain ends in the mock step exactly when the terminal
trace is a mock trace (and then the content is the mock generator's
output, the terminal step that cannot fail), and otherwise the content
is the last attempt's successfully returned text. -/
theorem C1_priority_chain (env : OrchEnv) (lessonId outline : Str) :
    (generateLessonContent env lessonId outline).attempts.map
      Attempt.provider = (orchChain env).filterMap adapterName ∧
    ((generateLessonContent env lessonId outline).attempts.dropLast.all
      (fun a => attemptFailed a.outcome)) = true ∧
    ((orchChain env).getLast? = some .mock ↔
      (terminalGenTrace (generateLessonContent env lessonId outline)).map
        Trace.mock = some true) ∧
    ((orchChain env).getLast? = some .mock →
      (firstUpdate (generateLessonContent env lessonId outline)).map
        UpdatePayload.content =
          some (some (generateMockLesson outline (isEasterEggB outline)))) ∧
    ((orchChain env).getLast? ≠ some .mock →
      ∃ c, ((generateLessonContent env lessonId outline).attempts.map
          Attempt.outcome).getLast? = some (.ok c) ∧
        (firstUpdate (generateLessonContent env lessonId outline)).map
          UpdatePayload.content = some (some c)) := by
  rcases env with ⟨hk, gk, hr, gr, ue, fe, n1, n2⟩
  rcases hgc : geminiCore gr with m | cm <;>
    rcases hr with e | comp <;>
      cases hk <;> cases gk <;> cases ue <;>
        simp [generateLessonContent, generateWithHelicone,
          generateWithGemini_eq, heliconeFails, heliconeCore, geminiFails,
          hgc, specPriorityChain, orchChain, adapterName, attemptFailed,
          firstUpdate, updatePayloads, terminalGenTrace, genTraceOf,
          Except.map]

/-- C6 counterexample.  On a live-adapter success returning empty text,
the orchestrator's terminal update sets `status = Generated` with
`content` present but *empty*, violating the claimed "content is present
and non-empty" on the live-adapter path. -/
theorem C6_counterexample :
    (firstUpdate (generateLessonContent envC6 (str "i") (str "x"))).map
      (fun u => (u.status, u.content)) =
      some (.Generated, some []) := by
  decide

/-- When the terminal trace is a mock trace, the terminal content is the
mock generator's output (shared support lemma). -/
theorem orch_mock_content (env : OrchEnv) (lessonId outline : Str)
    (h : (terminalGenTrace (generateLessonContent env lessonId
      outline)).map Trace.mock = some true) :
    (firstUpdate (generateLessonContent env lessonId outline)).map
      UpdatePayload.content =
      some (some (generateMockLesson outline (isEasterEggB outline))) := by
  rcases env with ⟨hk, gk, hr, gr, ue, fe, n1, n2⟩
  rcases hgc : geminiCore gr with m | cm <;>
    rcases hr with e | comp <;>
      cases hk <;> cases gk <;> cases ue <;>
        simp [generateLessonContent, generateWithHelicone,
          generateWithGemini_eq, Except.map, terminalGenTrace, firstUpdate,
          updatePayloads, genTraceOf, hgc] at h ⊢

/-- C6 as amended.  Every lesson record written by this core satisfies:
the initial insert has status `Generating` with `content` and `trace`
absent; every orchestrator update with status `Generated` carries a
present `content` and a generation trace, and every update with status
`Failed` carries no `content`; the record row obtained from the insert
and any prefix of the store-accepted updates satisfies the row invariant
(`Generated` ⇒ content present and trace present, `Generating`/`Failed`
⇒ content absent); and on every *mock* path the `Generated` content is
moreover non-empty.  (A live-adapter success may write empty content, as
the counterexample shows, so non-emptiness holds only on mock paths.) -/
theorem C6_invariant_amended (body : Option Str) (io : Except Str Str)
    (env : OrchEnv) (lessonId outline : Str) :
    (∀ req, (POST body io).insert = some req →
      req.status = .Generating ∧ rowInv (applyInsert req)) ∧
    (∀ u, u ∈ updatePayloads (generateLessonContent env lessonId outline) →
      (u.status = .Generated →
        u.content.isSome ∧ (genTraceOf u.trace).isSome) ∧
      (u.status = .Failed → u.content = none)) ∧
    (∀ u t, firstUpdate (generateLessonContent env lessonId outline) =
        some u → u.trace = .gen t → t.mock = true →
      ∃ c, u.content = some c ∧ c ≠ []) ∧
    (∀ req n, req.status = .Generating → rowInv (applyAccepted req
      ((generateLessonContent env lessonId outline).updates.take n))) := by
  refine ⟨?_, ?_, ?_, ?_⟩
  · intro req h
    rcases body with _ | o
    · exact absurd h (by simp [POST])
    · rcases io with e | lid <;> simp only [POST] at h <;> split at h
      all_goals
        first
          | (have h2 : (⟨o, extractTitle o, Status.Generating⟩ : InsertReq)
                = req := Option.some.inj h
             subst h2
             exact ⟨rfl, by simp [rowInv, applyInsert]⟩)
          | simp at h
  · intro u hu
    rcases env with ⟨hk, gk, hr, gr, ue, fe, n1, n2⟩
    cases ue <;>
      simp only [generateLessonContent, updatePayloads, List.map_cons,
        List.map_nil, List.mem_cons, List.mem_singleton,
        List.not_mem_nil, or_false] at hu
    · subst hu
      simp [genTraceOf]
    · rcases hu with rfl | rfl <;> simp [genTraceOf]
  · intro u t h1 h2 h3
    have hterm : terminalGenTrace (generateLessonContent env lessonId
        outline) = some t := by
      simp [terminalGenTrace, h1, h2, genTraceOf]
    have hm := orch_mock_content env lessonId outline
      (by simp [hterm, h3])
    rw [h1] at hm
    simp at hm
    exact ⟨_, hm, generateMockLesson_ne_nil _ _⟩
  · intro req n hreq
    rcases env with ⟨hk, gk, hr, gr, ue, fe, n1, n2⟩
    cases ue <;> rcases n with _ | _ | n <;> cases fe <;>
      simp [generateLessonContent, applyAccepted, applyUpdate,
        applyInsert, rowInv, hreq]

set_option maxRecDepth 4000 in
/-- C8 counterexample.  The trace's `prompt` field is the fixed summary
string built at line 98 of the route, while the prompt actually sent to
the chosen provider is the full template of lines 122–145: at the
outline `"topic"` the two differ, so the trace does not record the exact
prompt text sent. -/
theorem C8_counterexample :
    (terminalGenTrace (generateLessonContent envC8 (str "i")
      (str "topic"))).map Trace.prompt =
      some (str "Generate a TypeScript educational module for: topic") ∧
    (generateLessonContent envC8 (str "i") (str "topic")).attempts.map
      Attempt.prompt =
      [str normalPromptPre ++ str "topic" ++ str normalPromptPost] ∧
    str "Generate a TypeScript educational module for: topic" ≠
      str normalPromptPre ++ str "topic" ++ str normalPromptPost := by
  decide

/-- C8 as amended.  The trace record's `prompt` field always holds the
fixed summary `"Generate a TypeScript educational module for: " +
outline` — not the prompt actually sent; the prompt passed to every
adapter attempt (and the one the mock path would have used) is the
easter-egg or normal template built by `buildPrompt`. -/
theorem C8_trace_prompt_amended (env : OrchEnv) (lessonId outline : Str) :
    (terminalGenTrace (generateLessonContent env lessonId outline)).map
      Trace.prompt = some (tracePromptText outline) ∧
    ((generateLessonContent env lessonId outline).attempts.all
      (fun a => a.prompt == buildPrompt outline)) = true := by
  rcases env with ⟨hk, gk, hr, gr, ue, fe, n1, n2⟩
  rcases hgc : geminiCore gr with m | cm <;>
    rcases hr with e | comp <;>
      cases hk <;> cases gk <;> cases ue <;>
        simp [generateLessonContent, generateWithHelicone,
          generateWithGemini_eq, Except.map, terminalGenTrace, firstUpdate,
          updatePayloads, genTraceOf, hgc]

/-- C9 counterexample.  On the Gemini-fails-then-mock path the terminal
trace has `mock = true` — the mock generator produced the final content —
yet its `provider` field is still `"gemini"` (set before the attempt and
never cleared), contradicting "absent whenever the mock generator
produced the final content". -/
theorem C9_counterexample :
    (terminalGenTrace (generateLessonContent envC9 (str "i")
      (str "x"))).map Trace.provider = some (some (str "gemini")) ∧
    (terminalGenTrace (generateLessonContent envC9 (str "i")
      (str "x"))).map Trace.mock = some true := by
  decide

/-- C9 as amended.  The terminal trace's `provider` field names the
*last adapter the orchestrator attempted* — which is the producing path
on adapter success — and is absent only when no credential is configured;
on the fallback-to-mock paths it retains the last attempted adapter's
name (the `mock` flag, not `provider`, marks mock content). -/
theorem C9_provider_amended (env : OrchEnv) (lessonId outline : Str) :
    (terminalGenTrace (generateLessonContent env lessonId outline)).map
      Trace.provider = some (lastAttemptedProvider env) := by
  rcases env with ⟨hk, gk, hr, gr, ue, fe, n1, n2⟩
  rcases hgc : geminiCore gr with m | cm <;>
    rcases hr with e | comp <;>
      cases hk <;> cases gk <;> cases ue <;>
        simp [generateLessonContent, generateWithHelicone,
          generateWithGemini_eq, Except.map, terminalGenTrace, firstUpdate,
          updatePayloads, genTraceOf, hgc, lastAttemptedProvider,
          heliconeFails, heliconeCore]
